import Mathlib

/-!
Verification of the criptx44 client-side notification and chat-list layer.

The definitions below are a shallow embedding of the two source units:

* `src/hooks/useChatList.ts` — the live conversation aggregator: per-snapshot
  rebuild of the preview list (group previews, one-to-one previews with a
  counterpart profile lookup), the sort comparator, and the hook-state
  transitions on success / processing error / subscription error.
* `src/services/NotificationService.ts` — the notification dispatcher:
  preferences (load / merge-save), the initialize lifecycle, the two inbound
  event handlers, the sound player, and the service-match notification path.

JavaScript `Date` values are embedded as their millisecond epoch value
(`Int`, the result of `getTime()`); absent (`undefined` / `null`) fields are
`Option`; JavaScript string truthiness (`s || d` picks `d` for the empty
string) is the helper `strOr`.  Effectful calls (audio playback, haptics,
notification scheduling, the UI event bus, Firestore reads) are embedded as
emitted `Effect` values, with a record of outcome flags standing for whether
each external collaborator throws; a handler returns the list of effects it
attempted together with the error it propagates to its caller (`none` when it
returns normally).
-/

/-- JS string truthiness for `x || d` where `x : string | undefined`:
the empty string is falsy. -/
def strOr (o : Option String) (d : String) : String :=
  match o with
  | some s => if s.isEmpty then d else s
  | none => d

/-- `truncateMessage` from `useChatList.ts` (source default `maxLength = 10`):
`message.length > maxLength ? message.slice(0, maxLength) + '...' : message`. -/
def truncateMessage (message : String) (maxLength : Nat) : String :=
  if message.length > maxLength then message.take maxLength ++ "..." else message

/-- The `timestamp` field of a preview: `data.lastMessageTime?.toDate() || 'Nuovo'`
— either a concrete `Date` (epoch milliseconds) or the string sentinel `'Nuovo'`. -/
inductive TSVal where
  | date (t : Int)
  | nuovo
deriving DecidableEq

/-- A `ChatPreview` as built by `useChatList.ts`.  Fields that only one of the
two branches assigns (so that the other leaves them `undefined`) are `Option`s:
`participants` and `lastInteraction` are only set for groups, `status`,
`lastSeen` and `isAnonymous` only for one-to-one previews. -/
structure ChatPreview where
  id : String
  name : String
  lastMessage : String
  timestamp : TSVal
  unread : Nat
  photoURL : String
  isGroup : Bool
  participants : Option (List String)
  lastInteraction : Option Int
  status : Option String
  lastSeen : Option Int
  isAnonymous : Option Bool
deriving DecidableEq

/-- A conversation document as read from the `chats` collection. -/
structure ChatDoc where
  id : String
  isGroup : Bool
  name : String
  lastMessage : Option String
  lastMessageTime : Option Int
  unreadCount : Option (List (String × Nat))
  participants : List String
  lastInteraction : Option Int
deriving DecidableEq

/-- A user profile document (`userSnap.data()`). -/
structure UserProfile where
  displayName : Option String
  photoURL : Option String
  status : Option String
  lastSeen : Option Int
  isAnonymous : Option Bool
deriving DecidableEq

/-- Association-list lookup for `data.unreadCount?.[uid]`. -/
def alookup (k : String) : List (String × Nat) → Option Nat
  | [] => none
  | (k', v) :: rest => if k' = k then some v else alookup k rest

/-- `https://ui-avatars.com/api/?name=...&background=random` (the
percent-encoding applied by `encodeURIComponent` is not modelled). -/
def avatarUrl (name : String) : String :=
  "https://ui-avatars.com/api/?name=" ++ name ++ "&background=random"

/-- `data.lastMessage ? truncateMessage(data.lastMessage) : ''` (JS truthiness:
an absent or empty message yields `''`). -/
def lastMessageField (o : Option String) : String :=
  match o with
  | some m => if m.isEmpty then "" else truncateMessage m 10
  | none => ""

/-- `data.unreadCount?.[currentUser.uid] || 0`. -/
def unreadField (uid : String) (o : Option (List (String × Nat))) : Nat :=
  match o with
  | some l => (alookup uid l).getD 0
  | none => 0

/-- `data.lastMessageTime?.toDate() || 'Nuovo'` (a `Date` is always truthy). -/
def timestampField (o : Option Int) : TSVal :=
  match o with
  | some t => TSVal.date t
  | none => TSVal.nuovo

/-- The preview pushed for `data.isGroup` conversations (`useChatList.ts`
lines 36–46). -/
def groupPreview (uid : String) (d : ChatDoc) : ChatPreview :=
  { id := d.id
    name := d.name
    lastMessage := lastMessageField d.lastMessage
    timestamp := timestampField d.lastMessageTime
    unread := unreadField uid d.unreadCount
    photoURL := avatarUrl d.name
    isGroup := true
    participants := some d.participants
    lastInteraction := d.lastInteraction
    status := none
    lastSeen := none
    isAnonymous := none }

/-- The preview pushed for a one-to-one conversation once the counterpart
profile resolved (`useChatList.ts` lines 56–67). -/
def otherPreview (uid : String) (d : ChatDoc) (u : UserProfile) : ChatPreview :=
  { id := d.id
    name := strOr u.displayName "Utente"
    lastMessage := lastMessageField d.lastMessage
    timestamp := timestampField d.lastMessageTime
    unread := unreadField uid d.unreadCount
    photoURL := strOr u.photoURL (avatarUrl (strOr u.displayName "U"))
    isGroup := false
    participants := none
    lastInteraction := none
    status := some (strOr u.status "offline")
    lastSeen := u.lastSeen
    isAnonymous := some (u.isAnonymous.getD false)
    }

/-- One iteration of the snapshot loop for one document: `ok none` when the
document is skipped, `ok (some p)` when a preview is pushed, `error` when the
profile point-lookup throws (which the surrounding `try` turns into the error
path for the whole pass).  `fetch` stands for `getDoc` on the `users`
collection: `ok none` models a missing / empty profile document. -/
def previewOf (uid : String) (fetch : String → Except String (Option UserProfile))
    (d : ChatDoc) : Except String (Option ChatPreview) :=
  if d.isGroup then Except.ok (some (groupPreview uid d))
  else
    match d.participants.find? (fun i => i != uid) with
    | none => Except.ok none
    | some other =>
      if other.isEmpty then Except.ok none
      else
        match fetch other with
        | Except.error e => Except.error e
        | Except.ok none => Except.ok none
        | Except.ok (some prof) => Except.ok (some (otherPreview uid d prof))

/-- The whole `for (const chatDoc of snapshot.docs)` loop: sequential, pushing
previews in document order, aborting the pass on a thrown lookup. -/
def processDocs (uid : String) (fetch : String → Except String (Option UserProfile)) :
    List ChatDoc → Except String (List ChatPreview)
  | [] => Except.ok []
  | d :: rest =>
    match previewOf uid fetch d with
    | Except.error e => Except.error e
    | Except.ok none => processDocs uid fetch rest
    | Except.ok (some p) =>
      match processDocs uid fetch rest with
      | Except.error e => Except.error e
      | Except.ok l => Except.ok (p :: l)

/-- The value `a.lastInteraction || (typeof a.timestamp === 'string' ? new Date(0) : a.timestamp)`
computed by the comparator.  It is a `Date` (`date`) or — were the fallback
ever to produce one — a string; since the fallback maps the `'Nuovo'` sentinel
to `new Date(0)`, the `str` constructor is never produced. -/
inductive TimeVal where
  | date (t : Int)
  | str (s : String)
deriving DecidableEq

/-- `timeA` / `timeB` of the comparator (`useChatList.ts` lines 74–75). -/
def timeOf (c : ChatPreview) : TimeVal :=
  match c.lastInteraction with
  | some t => TimeVal.date t
  | none =>
    match c.timestamp with
    | TSVal.nuovo => TimeVal.date 0
    | TSVal.date t => TimeVal.date t

/-- The sort comparator (`useChatList.ts` lines 73–85).  The two `'Nuovo'`
branches mirror lines 81–84 of the source; they are reachable only when one
of the computed times is not a `Date`. -/
def chatCmp (a b : ChatPreview) : Int :=
  match timeOf a, timeOf b with
  | TimeVal.date ta, TimeVal.date tb => tb - ta
  | _, _ =>
    if a.timestamp = TSVal.nuovo then -1
    else if b.timestamp = TSVal.nuovo then 1
    else 0

/-- Stable insertion of `x` into a sorted list under a JS-style three-way
comparator: `x` goes before the first element it does not compare after. -/
def insertCmp (cmp : α → α → Int) (x : α) : List α → List α
  | [] => [x]
  | y :: ys => if cmp x y > 0 then y :: insertCmp cmp x ys else x :: y :: ys

/-- Stable sort under a JS-style comparator (`Array.prototype.sort`). -/
def sortByCmp (cmp : α → α → Int) : List α → List α
  | [] => []
  | x :: xs => insertCmp cmp x (sortByCmp cmp xs)

/-- One full successful rebuild of the preview list for one snapshot:
build in document order, then sort with the comparator. -/
def rebuild (uid : String) (fetch : String → Except String (Option UserProfile))
    (docs : List ChatDoc) : Except String (List ChatPreview) :=
  (processDocs uid fetch docs).map (sortByCmp chatCmp)

/-- The hook's published state: `chats`, `loading`, `error`. -/
structure HookState where
  chats : List ChatPreview
  loading : Bool
  error : Option String
deriving DecidableEq

/-- The `next` callback of the subscription: on success publish the rebuilt
list, clear the error and the loading flag; on a processing error keep the
previous list, set the error message, clear the loading flag
(`useChatList.ts` lines 28–95). -/
def onSnapshotNext (uid : String) (fetch : String → Except String (Option UserProfile))
    (docs : List ChatDoc) (st : HookState) : HookState :=
  match rebuild uid fetch docs with
  | Except.ok l => { chats := l, loading := false, error := none }
  | Except.error _ =>
    { chats := st.chats, loading := false, error := some "Errore nel caricamento delle chat" }

/-- The `error` callback of the subscription (`useChatList.ts` lines 96–100). -/
def onSnapshotError (st : HookState) : HookState :=
  { chats := st.chats, loading := false, error := some "Errore nella sincronizzazione delle chat" }

/-! ## NotificationService -/

/-- `NotificationPreferences` from `NotificationService.ts`. -/
structure NotificationPreferences where
  sound : Bool
  vibration : Bool
  background : Bool
  preview : Bool
  messageSound : String
  callSound : String
deriving DecidableEq

/-- `DEFAULT_SETTINGS`. -/
def DEFAULT_SETTINGS : NotificationPreferences :=
  { sound := true
    vibration := true
    background := true
    preview := true
    messageSound := "/sounds/message.mp3"
    callSound := "/sounds/call.mp3" }

/-- A `Partial<NotificationPreferences>` argument to `saveSettings`: each key
optionally present. -/
structure PrefsPatch where
  sound : Option Bool
  vibration : Option Bool
  background : Option Bool
  preview : Option Bool
  messageSound : Option String
  callSound : Option String
deriving DecidableEq

/-- The object spread `{ ...this.settings, ...settings }`: a key present in the
patch wins, every other key keeps its current value. -/
def mergePrefs (s : NotificationPreferences) (p : PrefsPatch) : NotificationPreferences :=
  { sound := p.sound.getD s.sound
    vibration := p.vibration.getD s.vibration
    background := p.background.getD s.background
    preview := p.preview.getD s.preview
    messageSound := p.messageSound.getD s.messageSound
    callSound := p.callSound.getD s.callSound }

/-- The mutable state of the `NotificationService` instance.  `messageSoundSrc`
and `callSoundSrc` are the `src` of the two shared `HTMLAudioElement`s;
`stored` is the parsed `notificationSettings` blob in `localStorage`;
`setupRuns` counts executions of the platform-specific setup body (a ghost
counter used to state that setup runs exactly once). -/
structure ServiceState where
  initialized : Bool
  hasPermission : Bool
  settings : NotificationPreferences
  messageSoundSrc : String
  callSoundSrc : String
  stored : Option NotificationPreferences
  setupRuns : Nat
deriving DecidableEq

/-- `saveSettings(settings)`: merge the patch into the current preferences,
persist the full merged object, and re-point an audio source when the patch
carries a truthy (non-empty) asset reference (`NotificationService.ts`
lines 52–62). -/
def saveSettings (p : PrefsPatch) (st : ServiceState) : ServiceState :=
  let merged := mergePrefs st.settings p
  { st with
    settings := merged
    stored := some merged
    messageSoundSrc :=
      match p.messageSound with
      | some s => if s.isEmpty then st.messageSoundSrc else s
      | none => st.messageSoundSrc
    callSoundSrc :=
      match p.callSound with
      | some s => if s.isEmpty then st.callSoundSrc else s
      | none => st.callSoundSrc }

/-- The outcome of one run of the platform-specific setup body
(`initializeMobileNotifications` / `initializeWebNotifications`): either it
completes, leaving `hasPermission` at `perm`, or it throws `e` after having
set `hasPermission` to `perm` (a step before the permission request throws
with `perm` equal to the old value). -/
inductive SetupOutcome where
  | ok (perm : Bool)
  | fail (e : String) (perm : Bool)
deriving DecidableEq

/-- `initialize()` (`NotificationService.ts` lines 68–83): an immediate no-op
when already initialized; otherwise run the platform setup — on success set
`initialized := true`, on failure rethrow the cause and leave `initialized`
false.  Returns the propagated error (`none` on normal return) and the
post-call state. -/
def initService (o : SetupOutcome) (st : ServiceState) : Option String × ServiceState :=
  if st.initialized then (none, st)
  else
    match o with
    | SetupOutcome.ok perm =>
      (none, { st with hasPermission := perm, setupRuns := st.setupRuns + 1, initialized := true })
    | SetupOutcome.fail e perm =>
      (some e, { st with hasPermission := perm, setupRuns := st.setupRuns + 1 })

/-- Which of the two shared audio elements a play call targets. -/
inductive SoundElem where
  | message
  | call
deriving DecidableEq

/-- An attempted external side effect. -/
inductive Effect where
  | soundPlay (elem : SoundElem) (src : String)
  | hapticImpact
  | scheduleLocal (title : String) (body : String) (sound : Option String) (actionTypeId : String)
  | showWebNotification (title : String) (body : String)
  | dispatchUIEvent (title : String) (message : String) (actionTarget : String)
deriving DecidableEq

/-- Whether each external collaborator throws when invoked during one event. -/
structure EffectOutcomes where
  soundFails : Bool
  hapticFails : Bool
  scheduleFails : Bool
  showFails : Bool
deriving DecidableEq

/-- `playNotificationSound(isCall)` (`NotificationService.ts` lines 197–205):
restart and play the call element when `isCall`, the message element
otherwise.  Its own `try/catch` swallows a playback failure, so
`out.soundFails` never changes its result or raises. -/
def playNotificationSound (st : ServiceState) (isCall : Bool) : List Effect :=
  [Effect.soundPlay (if isCall then SoundElem.call else SoundElem.message)
    (if isCall then st.callSoundSrc else st.messageSoundSrc)]

/-- A web push payload (`MessagePayload`): `payload.data?.type`,
`payload.notification?.title`, `payload.notification?.body`. -/
structure WebPayload where
  dataType : Option String
  title : Option String
  body : Option String
deriving DecidableEq

/-- A mobile push payload: `notification.foreground`, `notification.data?.type`,
`notification.title`, `notification.body`. -/
structure MobilePayload where
  foreground : Bool
  dataType : Option String
  title : Option String
  body : Option String
deriving DecidableEq

/-- The preview gate of `handleNotification` (`NotificationService.ts`
lines 147–168): when previews are enabled and permission is held, schedule a
local notification while the document is visible, else show a system
notification.  Neither call sits in a `try/catch`, so a throw propagates. -/
def previewGateWeb (st : ServiceState) (documentHidden : Bool) (out : EffectOutcomes)
    (p : WebPayload) (acc : List Effect) : List Effect × Option String :=
  if st.settings.preview && st.hasPermission then
    let title := strOr p.title "Nuovo messaggio"
    let body := strOr p.body ""
    if !documentHidden then
      let fx := Effect.scheduleLocal title body
        (if st.settings.sound then some "notification.wav" else none) ""
      if out.scheduleFails then (acc ++ [fx], some "schedule error")
      else (acc ++ [fx], none)
    else
      let fx := Effect.showWebNotification title body
      if out.showFails then (acc ++ [fx], some "show error")
      else (acc ++ [fx], none)
  else (acc, none)

/-- `handleNotification(payload)` (`NotificationService.ts` lines 136–169).
Background gate, then sound gate (failure swallowed inside
`playNotificationSound`), then the haptic gate — `await Haptics.impact` is not
wrapped, so a haptic throw aborts the handler before the preview gate — then
the preview gate. -/
def handleNotification (st : ServiceState) (isMobilePlatform documentHidden : Bool)
    (out : EffectOutcomes) (p : WebPayload) : List Effect × Option String :=
  if !st.settings.background && documentHidden then ([], none)
  else
    let soundFx := if st.settings.sound then playNotificationSound st (p.dataType == some "call") else []
    if st.settings.vibration && isMobilePlatform then
      if out.hapticFails then (soundFx ++ [Effect.hapticImpact], some "haptic error")
      else previewGateWeb st documentHidden out p (soundFx ++ [Effect.hapticImpact])
    else previewGateWeb st documentHidden out p soundFx

/-- The preview gate of `handleMobileNotification` (`NotificationService.ts`
lines 182–194). -/
def mobilePreviewGate (st : ServiceState) (out : EffectOutcomes) (n : MobilePayload)
    (acc : List Effect) : List Effect × Option String :=
  if st.settings.preview then
    let fx := Effect.scheduleLocal (strOr n.title "Nuovo messaggio") (strOr n.body "")
      (if st.settings.sound then some "notification.wav" else none) ""
    if out.scheduleFails then (acc ++ [fx], some "schedule error")
    else (acc ++ [fx], none)
  else (acc, none)

/-- `handleMobileNotification(notification)` (`NotificationService.ts`
lines 171–195): background gate against `notification.foreground`, sound gate,
unconditional-on-platform haptic gate (unwrapped, so a throw aborts the
handler), then the preview gate — on mobile no permission check and always the
scheduled-local path (its throw propagates). -/
def handleMobileNotification (st : ServiceState) (out : EffectOutcomes)
    (n : MobilePayload) : List Effect × Option String :=
  if !st.settings.background && !n.foreground then ([], none)
  else
    let soundFx := if st.settings.sound then playNotificationSound st (n.dataType == some "call") else []
    if st.settings.vibration then
      if out.hapticFails then (soundFx ++ [Effect.hapticImpact], some "haptic error")
      else mobilePreviewGate st out n (soundFx ++ [Effect.hapticImpact])
    else mobilePreviewGate st out n soundFx

/-- A `ServiceMatch` event. -/
structure ServiceInfo where
  id : String
  name : String
deriving DecidableEq

structure ServiceMatch where
  id : String
  service1 : ServiceInfo
  service2 : ServiceInfo
deriving DecidableEq

/-- `sendServiceMatchNotification(match)` (`NotificationService.ts`
lines 207–253).  The whole body sits in one `try/catch` that logs and
swallows, so the call never raises; but a throw from the scheduling
collaborator jumps to the `catch`, skipping the `showNotification` UI event
dispatch that follows it in the `try` block. -/
def sendServiceMatchNotification (st : ServiceState) (out : EffectOutcomes)
    (m : ServiceMatch) : List Effect × Option String :=
  let title := "Nuovo Match Servizio"
  let body := "Il tuo servizio \"" ++ m.service1.name ++ "\" ha un potenziale match!"
  let uiEvent := Effect.dispatchUIEvent title body ("/services/matches/" ++ m.id)
  if st.settings.preview && st.hasPermission then
    let fx := Effect.scheduleLocal title body
      (if st.settings.sound then some "notification.wav" else none) "service_match"
    if out.scheduleFails then ([fx], none)
    else ([fx, uiEvent], none)
  else ([uiEvent], none)

/-! ## Helper predicates and specification-side helpers -/

/-- Whether an effect is an audio play. -/
def isSoundFx : Effect → Bool
  | Effect.soundPlay _ _ => true
  | _ => false

/-- Whether an effect belongs to the preview gate (a scheduled local
notification or a direct system notification). -/
def isPreviewFx : Effect → Bool
  | Effect.scheduleLocal _ _ _ _ => true
  | Effect.showWebNotification _ _ => true
  | _ => false

/-- Whether an effect is the in-process `showNotification` UI event. -/
def isUIEventFx : Effect → Bool
  | Effect.dispatchUIEvent _ _ _ => true
  | _ => false

/-- Specification-side: the value of the most recent `some` in `xs`, or `d`
when no entry mentions the key. -/
def lastGiven (xs : List (Option α)) (d : α) : α :=
  xs.foldl (fun acc o => o.getD acc) d

/-- A sequence of `saveSettings` calls, earliest first. -/
def applyPatches (st : ServiceState) (ps : List PrefsPatch) : ServiceState :=
  ps.foldl (fun s p => saveSettings p s) st

/-- A one-to-one record whose counterpart profile does not resolve on this
pass: no participant other than the current user, a falsy (empty) counterpart
identifier, or a point lookup that returns no profile data. -/
def unresolvedCounterpart (uid : String)
    (fetch : String → Except String (Option UserProfile)) (e : ChatDoc) : Prop :=
  match e.participants.find? (fun i => i != uid) with
  | none => True
  | some o => o = "" ∨ fetch o = Except.ok none

/-! ## Concrete inputs used by witnesses and counterexamples -/

/-- A profile store where every lookup succeeds but finds no document. -/
def fetchNone : String → Except String (Option UserProfile) :=
  fun _ => Except.ok none

def exProfile : UserProfile :=
  { displayName := some "Bob"
    photoURL := none
    status := some "online"
    lastSeen := some 42
    isAnonymous := none }

/-- A profile store resolving only the user `"you"`. -/
def fetchBob : String → Except String (Option UserProfile) :=
  fun i => if i = "you" then Except.ok (some exProfile) else Except.ok none

/-- A profile store whose lookups throw. -/
def fetchBoom : String → Except String (Option UserProfile) :=
  fun _ => Except.error "boom"

def docA : ChatDoc :=
  { id := "A", isGroup := true, name := "Alpha", lastMessage := some "ciao"
    lastMessageTime := some 1000, unreadCount := none
    participants := ["me", "u1"], lastInteraction := some 1000 }

def docB : ChatDoc :=
  { id := "B", isGroup := true, name := "Beta", lastMessage := some "ciao"
    lastMessageTime := some 2000, unreadCount := none
    participants := ["me", "u2"], lastInteraction := some 2000 }

/-- A brand-new conversation: no last message time, no last interaction, so
its preview carries the `'Nuovo'` sentinel. -/
def docC : ChatDoc :=
  { id := "C", isGroup := true, name := "Gamma", lastMessage := none
    lastMessageTime := none, unreadCount := none
    participants := ["me", "u3"], lastInteraction := none }

/-- A one-to-one conversation between `"me"` and `"you"`. -/
def docOne : ChatDoc :=
  { id := "D", isGroup := false, name := "", lastMessage := some "hey"
    lastMessageTime := some 500, unreadCount := none
    participants := ["me", "you"], lastInteraction := none }

def exServiceState : ServiceState :=
  { initialized := true
    hasPermission := true
    settings := DEFAULT_SETTINGS
    messageSoundSrc := "/sounds/message.mp3"
    callSoundSrc := "/sounds/call.mp3"
    stored := none
    setupRuns := 1 }

def exUninit : ServiceState :=
  { exServiceState with initialized := false, hasPermission := false, setupRuns := 0 }

/-- All preferences on except background delivery. -/
def exBgOff : ServiceState :=
  { exServiceState with settings := { DEFAULT_SETTINGS with background := false } }

def exOutOk : EffectOutcomes :=
  { soundFails := false, hapticFails := false, scheduleFails := false, showFails := false }

def exOutHaptic : EffectOutcomes :=
  { exOutOk with hapticFails := true }

def exOutSchedule : EffectOutcomes :=
  { exOutOk with scheduleFails := true }

def exOutShow : EffectOutcomes :=
  { exOutOk with showFails := true }

def exWebPayload : WebPayload :=
  { dataType := none, title := some "Ciao", body := some "Testo" }

def exCallPayload : WebPayload :=
  { dataType := some "call", title := none, body := none }

def exMobilePayload : MobilePayload :=
  { foreground := true, dataType := none, title := some "Ciao", body := some "Testo" }

/-- A mobile event received while the app is backgrounded. -/
def exMobileBg : MobilePayload :=
  { foreground := false, dataType := none, title := some "Ciao", body := some "Testo" }

def exMatch : ServiceMatch :=
  { id := "m1"
    service1 := { id := "s1", name := "Pulizie" }
    service2 := { id := "s2", name := "Giardino" } }

def exPatchSound : PrefsPatch :=
  { sound := some false, vibration := none, background := none, preview := none
    messageSound := none, callSound := none }

def exPatchMsg : PrefsPatch :=
  { sound := none, vibration := none, background := none, preview := none
    messageSound := some "/sounds/other.mp3", callSound := none }

/-! ## Helper lemmas -/

theorem mem_insertCmp {α : Type} (cmp : α → α → Int) (x a : α) :
    ∀ l : List α, a ∈ insertCmp cmp x l ↔ a = x ∨ a ∈ l := by
  intro l
  induction l with
  | nil => simp [insertCmp]
  | cons y ys ih =>
    by_cases h : cmp x y > 0
    · simp only [insertCmp, if_pos h, List.mem_cons, ih]
      tauto
    · simp only [insertCmp, if_neg h, List.mem_cons]

theorem mem_sortByCmp {α : Type} (cmp : α → α → Int) (a : α) :
    ∀ l : List α, a ∈ sortByCmp cmp l ↔ a ∈ l := by
  intro l
  induction l with
  | nil => simp [sortByCmp]
  | cons x xs ih =>
    simp only [sortByCmp, mem_insertCmp, ih, List.mem_cons]

theorem previewOf_id {uid : String} {fetch : String → Except String (Option UserProfile)}
    {d : ChatDoc} {p : ChatPreview} (h : previewOf uid fetch d = Except.ok (some p)) :
    p.id = d.id := by
  unfold previewOf at h
  split at h
  · simp only [Except.ok.injEq, Option.some.injEq] at h
    subst h
    rfl
  · split at h
    · simp at h
    · split at h
      · simp at h
      · split at h
        · simp at h
        · simp at h
        · simp only [Except.ok.injEq, Option.some.injEq] at h
          subst h
          rfl

theorem previewOf_not_unresolved {uid : String}
    {fetch : String → Except String (Option UserProfile)} {d : ChatDoc} {p : ChatPreview}
    (h : previewOf uid fetch d = Except.ok (some p)) (hg : d.isGroup = false) :
    ¬ unresolvedCounterpart uid fetch d := by
  intro hu
  unfold previewOf at h
  rw [hg] at h
  simp only [Bool.false_eq_true, if_false] at h
  unfold unresolvedCounterpart at hu
  cases hfind : d.participants.find? (fun i => i != uid) with
  | none => rw [hfind] at h; simp at h
  | some other =>
    rw [hfind] at h hu
    dsimp only at h hu
    by_cases he : other.isEmpty = true
    · rw [if_pos he] at h
      simp at h
    · rw [if_neg he] at h
      cases hu with
      | inl h0 =>
        subst h0
        exact absurd (by decide : "".isEmpty = true) he
      | inr hn =>
        rw [hn] at h
        simp at h

theorem processDocs_origin {uid : String} {fetch : String → Except String (Option UserProfile)} :
    ∀ (docs : List ChatDoc) {l : List ChatPreview},
      processDocs uid fetch docs = Except.ok l →
      ∀ p ∈ l, ∃ d, d ∈ docs ∧ previewOf uid fetch d = Except.ok (some p) := by
  intro docs
  induction docs with
  | nil =>
    intro l h p hp
    simp only [processDocs, Except.ok.injEq] at h
    subst h
    simp at hp
  | cons d rest ih =>
    intro l h p hp
    unfold processDocs at h
    cases hpre : previewOf uid fetch d with
    | error e => rw [hpre] at h; simp at h
    | ok o =>
      cases o with
      | none =>
        rw [hpre] at h
        simp only at h
        obtain ⟨d', hd', hp'⟩ := ih h p hp
        exact ⟨d', List.mem_cons_of_mem _ hd', hp'⟩
      | some q =>
        rw [hpre] at h
        simp only at h
        cases hrest : processDocs uid fetch rest with
        | error e => rw [hrest] at h; simp at h
        | ok l' =>
          rw [hrest] at h
          simp only [Except.ok.injEq] at h
          subst h
          rcases List.mem_cons.mp hp with hq | hl'
          · subst hq
            exact ⟨d, List.mem_cons_self _ _, hpre⟩
          · obtain ⟨d', hd', hp'⟩ := ih hrest p hl'
            exact ⟨d', List.mem_cons_of_mem _ hd', hp'⟩

theorem processDocs_mem {uid : String} {fetch : String → Except String (Option UserProfile)} :
    ∀ (docs : List ChatDoc) {l : List ChatPreview} {d : ChatDoc} {p : ChatPreview},
      d ∈ docs → previewOf uid fetch d = Except.ok (some p) →
      processDocs uid fetch docs = Except.ok l → p ∈ l := by
  intro docs
  induction docs with
  | nil =>
    intro l d p hd
    simp at hd
  | cons d0 rest ih =>
    intro l d p hd hpre h
    unfold processDocs at h
    rcases List.mem_cons.mp hd with hd0 | hdrest
    · subst hd0
      rw [hpre] at h
      simp only at h
      cases hrest : processDocs uid fetch rest with
      | error e => rw [hrest] at h; simp at h
      | ok l' =>
        rw [hrest] at h
        simp only [Except.ok.injEq] at h
        subst h
        exact List.mem_cons_self _ _
    · cases hpre0 : previewOf uid fetch d0 with
      | error e => rw [hpre0] at h; simp at h
      | ok o =>
        cases o with
        | none =>
          rw [hpre0] at h
          simp only at h
          exact ih hdrest hpre h
        | some q =>
          rw [hpre0] at h
          simp only at h
          cases hrest : processDocs uid fetch rest with
          | error e => rw [hrest] at h; simp at h
          | ok l' =>
            rw [hrest] at h
            simp only [Except.ok.injEq] at h
            subst h
            exact List.mem_cons_of_mem _ (ih hdrest hpre hrest)

theorem applyPatches_settings :
    ∀ (ps : List PrefsPatch) (st : ServiceState),
      (applyPatches st ps).settings =
        { sound := lastGiven (ps.map PrefsPatch.sound) st.settings.sound
          vibration := lastGiven (ps.map PrefsPatch.vibration) st.settings.vibration
          background := lastGiven (ps.map PrefsPatch.background) st.settings.background
          preview := lastGiven (ps.map PrefsPatch.preview) st.settings.preview
          messageSound := lastGiven (ps.map PrefsPatch.messageSound) st.settings.messageSound
          callSound := lastGiven (ps.map PrefsPatch.callSound) st.settings.callSound } := by
  intro ps
  induction ps with
  | nil => intro st; simp [applyPatches, lastGiven]
  | cons p rest ih =>
    intro st
    have hstep : applyPatches st (p :: rest) = applyPatches (saveSettings p st) rest := by
      simp [applyPatches, List.foldl]
    rw [hstep, ih]
    simp [saveSettings, mergePrefs, lastGiven, List.foldl]

/-! ## Claim theorems -/

/-- C8: `truncateMessage` leaves strings of length at most 10 unchanged and
maps any longer string to its first 10 characters followed by `"..."`. -/
theorem truncateMessage_spec :
    ∀ m : String,
      (m.length ≤ 10 → truncateMessage m 10 = m) ∧
      (m.length > 10 → truncateMessage m 10 = m.take 10 ++ "...") := by
  intro m
  constructor
  · intro h
    unfold truncateMessage
    rw [if_neg (by omega)]
  · intro h
    unfold truncateMessage
    rw [if_pos h]

/-- Witness for C8 at the spec's two concrete messages: the 15-character
message is truncated to its first 10 characters plus an ellipsis, the
5-character message is unchanged. -/
theorem truncateMessage_spec_witness :
    truncateMessage "Hello there all" 10 = "Hello ther..." ∧
    truncateMessage "Hello" 10 = "Hello" := by
  constructor
  · rw [(truncateMessage_spec "Hello there all").2 (by decide)]
    rfl
  · exact (truncateMessage_spec "Hello").1 (by decide)

/-- C1 (code bug): at the snapshot {A: lastInteraction 1000, B: lastInteraction
2000, C: brand-new (`'Nuovo'` sentinel)}, the published order is [B, A, C] —
the comparator maps the sentinel to `new Date(0)`, so the brand-new
conversation sorts last, not first, and the comparator's sentinel-first
branches (source lines 81–84) are unreachable. -/
theorem chatSort_sentinel_eval :
    (rebuild "me" fetchNone [docA, docB, docC]).map (fun l => l.map ChatPreview.id) =
      Except.ok ["B", "A", "C"] ∧
    (groupPreview "me" docC).timestamp = TSVal.nuovo ∧
    (groupPreview "me" docC).lastInteraction = none := by
  refine ⟨?_, rfl, rfl⟩
  rfl

/-- C6: with background delivery disabled and the app not foregrounded
(document hidden for web events, `foreground` false for mobile events), both
handlers return without attempting any effect. -/
theorem background_gate_spec :
    ∀ (st : ServiceState) (mob : Bool) (out : EffectOutcomes)
      (p : WebPayload) (n : MobilePayload),
      st.settings.background = false →
      handleNotification st mob true out p = ([], none) ∧
      (n.foreground = false → handleMobileNotification st out n = ([], none)) := by
  intro st mob out p n hbg
  constructor
  · simp [handleNotification, hbg]
  · intro hf
    simp [handleMobileNotification, hbg, hf]

/-- Witness for C6: with background off, a hidden-document web event and a
backgrounded mobile event produce no effect and no error. -/
theorem background_gate_spec_witness :
    handleNotification exBgOff true true exOutOk exWebPayload = ([], none) ∧
    handleMobileNotification exBgOff exOutOk exMobileBg = ([], none) := by
  have h := background_gate_spec exBgOff true exOutOk exWebPayload exMobileBg rfl
  exact ⟨h.1, h.2 rfl⟩

/-- C10: a snapshot-processing failure or a subscription transport error
leaves the previously published list unchanged, sets the error indicator and
clears the loading flag; the aggregator never publishes a partial or cleared
list on error. -/
theorem snapshot_error_preserves_chats :
    ∀ (uid : String) (fetch : String → Except String (Option UserProfile))
      (docs : List ChatDoc) (st : HookState) (e : String),
      (rebuild uid fetch docs = Except.error e →
        onSnapshotNext uid fetch docs st =
          { chats := st.chats, loading := false
            error := some "Errore nel caricamento delle chat" }) ∧
      onSnapshotError st =
        { chats := st.chats, loading := false
          error := some "Errore nella sincronizzazione delle chat" } := by
  intro uid fetch docs st e
  constructor
  · intro h
    unfold onSnapshotNext
    rw [h]
  · rfl

/-- Witness for C10: a throwing profile lookup fails the pass and the
previously published chats survive unchanged. -/
theorem snapshot_error_preserves_chats_witness :
    onSnapshotNext "me" fetchBoom [docOne]
        { chats := [groupPreview "me" docA], loading := false, error := none } =
      { chats := [groupPreview "me" docA], loading := false
        error := some "Errore nel caricamento delle chat" } := by
  exact (snapshot_error_preserves_chats "me" fetchBoom [docOne]
    { chats := [groupPreview "me" docA], loading := false, error := none } "boom").1 rfl

/-- C4: the initialized flag transitions false→true only on successful setup
and never reverts; a second call is an immediate no-op (setup runs exactly
once across repeated successful calls); a failing setup rethrows its cause
and leaves the flag false so a retry redoes setup. -/
theorem initService_lifecycle :
    ∀ (st : ServiceState) (o : SetupOutcome),
      (st.initialized = true → initService o st = (none, st)) ∧
      (st.initialized = false → ∀ (e : String) (perm : Bool),
        (initService (SetupOutcome.fail e perm) st).1 = some e ∧
        (initService (SetupOutcome.fail e perm) st).2.initialized = false ∧
        (initService (SetupOutcome.fail e perm) st).2.setupRuns = st.setupRuns + 1) ∧
      ((initService o st).2.initialized = true ↔
        st.initialized = true ∨ ∃ perm, o = SetupOutcome.ok perm) ∧
      (st.initialized = false → ∀ perm : Bool,
        (initService (SetupOutcome.ok perm) st).1 = none ∧
        (initService (SetupOutcome.ok perm) st).2.initialized = true ∧
        (initService (SetupOutcome.ok perm) st).2.setupRuns = st.setupRuns + 1 ∧
        ∀ o2 : SetupOutcome,
          initService o2 (initService (SetupOutcome.ok perm) st).2 =
            (none, (initService (SetupOutcome.ok perm) st).2)) := by
  intro st o
  refine ⟨?_, ?_, ?_, ?_⟩
  · intro h
    simp [initService, h]
  · intro h e perm
    simp [initService, h]
  · cases hinit : st.initialized with
    | true =>
      simp [initService, hinit]
    | false =>
      cases o with
      | ok perm => simp [initService, hinit]
      | fail e perm => simp [initService, hinit]
  · intro h perm
    refine ⟨by simp [initService, h], by simp [initService, h], by simp [initService, h], ?_⟩
    intro o2
    simp [initService, h]

/-- Witness for C4: a successful first call flips the flag and a second call
is a no-op; a failing first call rethrows and leaves the flag false. -/
theorem initService_lifecycle_witness :
    initService (SetupOutcome.ok true) exServiceState = (none, exServiceState) ∧
    (initService (SetupOutcome.fail "boom" false) exUninit).1 = some "boom" ∧
    (initService (SetupOutcome.fail "boom" false) exUninit).2.initialized = false ∧
    (initService (SetupOutcome.ok true) exUninit).2.initialized = true := by
  refine ⟨?_, ?_, ?_, ?_⟩
  · exact (initService_lifecycle exServiceState (SetupOutcome.ok true)).1 rfl
  · exact ((initService_lifecycle exUninit (SetupOutcome.fail "boom" false)).2.1 rfl "boom" false).1
  · exact ((initService_lifecycle exUninit (SetupOutcome.fail "boom" false)).2.1 rfl "boom" false).2.1
  · exact ((initService_lifecycle exUninit (SetupOutcome.ok true)).2.2.2 rfl true).2.1

/-- C9: after any sequence of `saveSettings` calls, every preference key holds
the value of the most recent patch that mentioned it (the starting value when
none did), and after each single call the full merged object is what is
persisted. -/
theorem saveSettings_merge_spec :
    ∀ (st : ServiceState) (ps : List PrefsPatch),
      (applyPatches st ps).settings.sound =
        lastGiven (ps.map PrefsPatch.sound) st.settings.sound ∧
      (applyPatches st ps).settings.vibration =
        lastGiven (ps.map PrefsPatch.vibration) st.settings.vibration ∧
      (applyPatches st ps).settings.background =
        lastGiven (ps.map PrefsPatch.background) st.settings.background ∧
      (applyPatches st ps).settings.preview =
        lastGiven (ps.map PrefsPatch.preview) st.settings.preview ∧
      (applyPatches st ps).settings.messageSound =
        lastGiven (ps.map PrefsPatch.messageSound) st.settings.messageSound ∧
      (applyPatches st ps).settings.callSound =
        lastGiven (ps.map PrefsPatch.callSound) st.settings.callSound ∧
      ∀ (p : PrefsPatch) (s : ServiceState),
        (saveSettings p s).stored = some (saveSettings p s).settings := by
  intro st ps
  have h := applyPatches_settings ps st
  refine ⟨?_, ?_, ?_, ?_, ?_, ?_, ?_⟩
  · rw [h]
  · rw [h]
  · rw [h]
  · rw [h]
  · rw [h]
  · rw [h]
  · intro p s
    rfl

/-- C5: on one aggregation pass, a one-to-one record with no resolvable
counterpart profile is absent from the published preview list; on a later
snapshot whose lookup resolves, a preview for it is present. -/
theorem oneToOne_unresolved_spec :
    ∀ (uid : String) (fetch : String → Except String (Option UserProfile))
      (docs : List ChatDoc) (d : ChatDoc) (out : List ChatPreview),
      ((∀ e, e ∈ docs → e.id = d.id → e.isGroup = false ∧ unresolvedCounterpart uid fetch e) →
        rebuild uid fetch docs = Except.ok out →
        d.id ∉ out.map ChatPreview.id) ∧
      (d ∈ docs → d.isGroup = false →
        ∀ (other : String) (prof : UserProfile),
          d.participants.find? (fun i => i != uid) = some other →
          other.isEmpty = false →
          fetch other = Except.ok (some prof) →
          rebuild uid fetch docs = Except.ok out →
          d.id ∈ out.map ChatPreview.id) := by
  intro uid fetch docs d out
  constructor
  · intro hall hreb hmem
    obtain ⟨l, hproc, hsort⟩ : ∃ l, processDocs uid fetch docs = Except.ok l ∧
        out = sortByCmp chatCmp l := by
      unfold rebuild at hreb
      cases hp : processDocs uid fetch docs with
      | error e => rw [hp] at hreb; simp [Except.map] at hreb
      | ok l =>
        rw [hp] at hreb
        simp only [Except.map, Except.ok.injEq] at hreb
        exact ⟨l, rfl, hreb.symm⟩
    obtain ⟨p, hp_out, hpid⟩ := List.mem_map.mp hmem
    have hp_l : p ∈ l := by
      rw [hsort] at hp_out
      exact (mem_sortByCmp chatCmp p l).mp hp_out
    obtain ⟨e, he_docs, hpre⟩ := processDocs_origin docs hproc p hp_l
    have heid : e.id = d.id := by rw [← previewOf_id hpre, hpid]
    obtain ⟨hg, hu⟩ := hall e he_docs heid
    exact previewOf_not_unresolved hpre hg hu
  · intro hd hg other prof hfind hne hfetch hreb
    have hpre : previewOf uid fetch d = Except.ok (some (otherPreview uid d prof)) := by
      unfold previewOf
      rw [hg]
      simp only [Bool.false_eq_true, if_false, hfind]
      rw [hne]
      simp only [Bool.false_eq_true, if_false, hfetch]
    obtain ⟨l, hproc, hsort⟩ : ∃ l, processDocs uid fetch docs = Except.ok l ∧
        out = sortByCmp chatCmp l := by
      unfold rebuild at hreb
      cases hp : processDocs uid fetch docs with
      | error e => rw [hp] at hreb; simp [Except.map] at hreb
      | ok l =>
        rw [hp] at hreb
        simp only [Except.map, Except.ok.injEq] at hreb
        exact ⟨l, rfl, hreb.symm⟩
    have hmem_l := processDocs_mem docs hd hpre hproc
    have hmem_out : otherPreview uid d prof ∈ out := by
      rw [hsort]
      exact (mem_sortByCmp chatCmp _ l).mpr hmem_l
    exact List.mem_map.mpr ⟨otherPreview uid d prof, hmem_out, rfl⟩

/-- Witness for C5: the one-to-one conversation `"D"` between `"me"` and
`"you"` is dropped while the profile of `"you"` does not resolve, and is
present once it does. -/
theorem oneToOne_unresolved_spec_witness :
    "D" ∉ (sortByCmp chatCmp []).map ChatPreview.id ∧
    "D" ∈ (sortByCmp chatCmp [otherPreview "me" docOne exProfile]).map ChatPreview.id := by
  constructor
  · refine (oneToOne_unresolved_spec "me" fetchNone [docOne] docOne _).1 ?_ rfl
    intro e he heid
    have : e = docOne := by
      simp only [List.mem_singleton] at he
      exact he
    subst this
    exact ⟨rfl, Or.inr rfl⟩
  · exact (oneToOne_unresolved_spec "me" fetchBob [docOne] docOne _).2
      (List.mem_singleton.mpr rfl) rfl "you" exProfile rfl rfl rfl rfl

theorem previewGateWeb_filter (st : ServiceState) (hid : Bool) (out : EffectOutcomes)
    (p : WebPayload) (acc : List Effect) :
    ((previewGateWeb st hid out p acc).1).filter isSoundFx = acc.filter isSoundFx := by
  unfold previewGateWeb
  repeat' split
  all_goals simp [List.filter_append, isSoundFx]

theorem mobilePreviewGate_filter (st : ServiceState) (out : EffectOutcomes)
    (n : MobilePayload) (acc : List Effect) :
    ((mobilePreviewGate st out n acc).1).filter isSoundFx = acc.filter isSoundFx := by
  unfold mobilePreviewGate
  repeat' split
  all_goals simp [List.filter_append, isSoundFx]

theorem handleNotification_soundFilter (st : ServiceState) (mob hid : Bool)
    (out : EffectOutcomes) (p : WebPayload)
    (hgate : (!st.settings.background && hid) = false) :
    ((handleNotification st mob hid out p).1).filter isSoundFx =
      (if st.settings.sound then
        [Effect.soundPlay (if p.dataType == some "call" then SoundElem.call else SoundElem.message)
          (if p.dataType == some "call" then st.callSoundSrc else st.messageSoundSrc)]
      else []) := by
  unfold handleNotification
  rw [hgate]
  simp only [Bool.false_eq_true, if_false]
  split
  · split
    · cases hs : st.settings.sound <;>
        simp [playNotificationSound, List.filter_append, isSoundFx, hs]
    · rw [previewGateWeb_filter]
      cases hs : st.settings.sound <;>
        simp [playNotificationSound, List.filter_append, isSoundFx, hs]
  · rw [previewGateWeb_filter]
    cases hs : st.settings.sound <;>
      simp [playNotificationSound, List.filter_append, isSoundFx, hs]

theorem handleMobileNotification_soundFilter (st : ServiceState)
    (out : EffectOutcomes) (n : MobilePayload)
    (hgate : (!st.settings.background && !n.foreground) = false) :
    ((handleMobileNotification st out n).1).filter isSoundFx =
      (if st.settings.sound then
        [Effect.soundPlay (if n.dataType == some "call" then SoundElem.call else SoundElem.message)
          (if n.dataType == some "call" then st.callSoundSrc else st.messageSoundSrc)]
      else []) := by
  unfold handleMobileNotification
  rw [hgate]
  simp only [Bool.false_eq_true, if_false]
  split
  · split
    · cases hs : st.settings.sound <;>
        simp [playNotificationSound, List.filter_append, isSoundFx, hs]
    · rw [mobilePreviewGate_filter]
      cases hs : st.settings.sound <;>
        simp [playNotificationSound, List.filter_append, isSoundFx, hs]
  · rw [mobilePreviewGate_filter]
    cases hs : st.settings.sound <;>
      simp [playNotificationSound, List.filter_append, isSoundFx, hs]

theorem soundPlay_mem_of_filter {l : List Effect} {sfx : List Effect}
    (hf : l.filter isSoundFx = sfx) (el : SoundElem) (src : String) :
    Effect.soundPlay el src ∈ l ↔ Effect.soundPlay el src ∈ sfx := by
  rw [← hf]
  constructor
  · intro h
    exact List.mem_filter.mpr ⟨h, rfl⟩
  · intro h
    exact (List.mem_filter.mp h).1

/-- C7: once an event passes the background gate, with sound enabled the
handler plays the call audio element (with the call asset) iff the event's
data type equals `"call"`, and plays the message element otherwise; with
sound disabled no audio element is played.  This holds for both the web and
the mobile handler. -/
theorem sound_gate_spec :
    ∀ (st : ServiceState) (mob hid : Bool) (out : EffectOutcomes)
      (p : WebPayload) (n : MobilePayload),
      ((!st.settings.background && hid) = false →
        (st.settings.sound = true →
          ((Effect.soundPlay SoundElem.call st.callSoundSrc ∈ (handleNotification st mob hid out p).1) ↔
            p.dataType = some "call") ∧
          (p.dataType ≠ some "call" →
            Effect.soundPlay SoundElem.message st.messageSoundSrc ∈
              (handleNotification st mob hid out p).1)) ∧
        (st.settings.sound = false →
          ∀ (el : SoundElem) (src : String),
            Effect.soundPlay el src ∉ (handleNotification st mob hid out p).1)) ∧
      ((!st.settings.background && !n.foreground) = false →
        (st.settings.sound = true →
          ((Effect.soundPlay SoundElem.call st.callSoundSrc ∈ (handleMobileNotification st out n).1) ↔
            n.dataType = some "call") ∧
          (n.dataType ≠ some "call" →
            Effect.soundPlay SoundElem.message st.messageSoundSrc ∈
              (handleMobileNotification st out n).1)) ∧
        (st.settings.sound = false →
          ∀ (el : SoundElem) (src : String),
            Effect.soundPlay el src ∉ (handleMobileNotification st out n).1)) := by
  intro st mob hid out p n
  constructor
  · intro hgate
    have hf := handleNotification_soundFilter st mob hid out p hgate
    constructor
    · intro hs
      rw [hs, if_pos rfl] at hf
      constructor
      · rw [soundPlay_mem_of_filter hf]
        cases hc : (p.dataType == some "call") with
        | true =>
          simp only [hc, if_pos rfl]
          simp [List.mem_singleton]
          exact eq_of_beq hc
        | false =>
          simp only [Bool.false_eq_true, if_false, List.mem_singleton]
          constructor
          · intro habs
            exact absurd habs (by simp)
          · intro habs
            rw [habs] at hc
            simp at hc
      · intro hne
        have hc : (p.dataType == some "call") = false := by
          cases hc2 : (p.dataType == some "call") with
          | true => exact absurd (eq_of_beq hc2) hne
          | false => rfl
        rw [soundPlay_mem_of_filter hf]
        rw [hc]
        simp
    · intro hs
      rw [hs] at hf
      simp only [Bool.false_eq_true, if_false] at hf
      intro el src hmem
      have : Effect.soundPlay el src ∈ ([] : List Effect) :=
        (soundPlay_mem_of_filter hf el src).mp hmem
      simp at this
  · intro hgate
    have hf := handleMobileNotification_soundFilter st out n hgate
    constructor
    · intro hs
      rw [hs, if_pos rfl] at hf
      constructor
      · rw [soundPlay_mem_of_filter hf]
        cases hc : (n.dataType == some "call") with
        | true =>
          simp only [hc, if_pos rfl]
          simp [List.mem_singleton]
          exact eq_of_beq hc
        | false =>
          simp only [Bool.false_eq_true, if_false, List.mem_singleton]
          constructor
          · intro habs
            exact absurd habs (by simp)
          · intro habs
            rw [habs] at hc
            simp at hc
      · intro hne
        have hc : (n.dataType == some "call") = false := by
          cases hc2 : (n.dataType == some "call") with
          | true => exact absurd (eq_of_beq hc2) hne
          | false => rfl
        rw [soundPlay_mem_of_filter hf]
        rw [hc]
        simp
    · intro hs
      rw [hs] at hf
      simp only [Bool.false_eq_true, if_false] at hf
      intro el src hmem
      have : Effect.soundPlay el src ∈ ([] : List Effect) :=
        (soundPlay_mem_of_filter hf el src).mp hmem
      simp at this

/-- Witness for C7: a foregrounded call event plays the call asset and a
non-call event plays the message asset. -/
theorem sound_gate_spec_witness :
    Effect.soundPlay SoundElem.call "/sounds/call.mp3" ∈
      (handleNotification exServiceState false false exOutOk exCallPayload).1 ∧
    Effect.soundPlay SoundElem.message "/sounds/message.mp3" ∈
      (handleNotification exServiceState false false exOutOk exWebPayload).1 := by
  constructor
  · exact (((sound_gate_spec exServiceState false false exOutOk exCallPayload exMobilePayload).1
      rfl).1 rfl).1.mpr rfl
  · exact (((sound_gate_spec exServiceState false false exOutOk exWebPayload exMobilePayload).1
      rfl).1 rfl).2 (by simp [exWebPayload])

theorem previewGateWeb_schedule_err (st : ServiceState) (hid : Bool)
    (out : EffectOutcomes) (p : WebPayload) (acc : List Effect)
    (hp : (st.settings.preview && st.hasPermission) = true)
    (hhid : hid = false) (hs : out.scheduleFails = true) :
    (previewGateWeb st hid out p acc).2 = some "schedule error" := by
  unfold previewGateWeb
  rw [hp, hhid, hs]
  simp

theorem previewGateWeb_show_err (st : ServiceState) (hid : Bool)
    (out : EffectOutcomes) (p : WebPayload) (acc : List Effect)
    (hp : (st.settings.preview && st.hasPermission) = true)
    (hhid : hid = true) (hs : out.showFails = true) :
    (previewGateWeb st hid out p acc).2 = some "show error" := by
  unfold previewGateWeb
  rw [hp, hhid, hs]
  simp

theorem mobilePreviewGate_schedule_err (st : ServiceState)
    (out : EffectOutcomes) (n : MobilePayload) (acc : List Effect)
    (hp : st.settings.preview = true) (hs : out.scheduleFails = true) :
    (mobilePreviewGate st out n acc).2 = some "schedule error" := by
  unfold mobilePreviewGate
  rw [hp, hs]
  simp

/-- C2 counterexample: with every preference enabled and permission held, a
haptic failure on a mobile-platform web event propagates out of the handler
(`some "haptic error"`) and the preview gate is never attempted — the gates
are not failure-independent. -/
theorem handleNotification_haptic_short_circuit :
    handleNotification exServiceState true false exOutHaptic exWebPayload =
      ([Effect.soundPlay SoundElem.message "/sounds/message.mp3", Effect.hapticImpact],
        some "haptic error") ∧
    ((handleNotification exServiceState true false exOutHaptic exWebPayload).1.all
      (fun e => !isPreviewFx e)) = true ∧
    exServiceState.settings.preview = true ∧ exServiceState.hasPermission = true := by
  exact ⟨rfl, rfl, rfl, rfl⟩

/-- C2 as amended: only the sound gate is failure-isolated — a sound playback
failure is swallowed inside `playNotificationSound` and never changes the
handler's effects or outcome; an unhandled haptic failure propagates to the
event source and prevents the preview gate from being attempted; a preview
failure propagates to the event source on every preview path: a scheduling
throw on the visible-document web path, a `new Notification` throw on the
hidden-document web path, and a scheduling throw on the mobile path. -/
theorem handler_failure_isolation :
    ∀ (st : ServiceState) (mob hid : Bool) (out : EffectOutcomes)
      (p : WebPayload) (n : MobilePayload),
      handleNotification st mob hid { out with soundFails := true } p =
        handleNotification st mob hid { out with soundFails := false } p ∧
      handleMobileNotification st { out with soundFails := true } n =
        handleMobileNotification st { out with soundFails := false } n ∧
      ((!st.settings.background && hid) = false → st.settings.vibration = true →
        mob = true → out.hapticFails = true →
        (handleNotification st mob hid out p).2 = some "haptic error" ∧
        ((handleNotification st mob hid out p).1.all (fun e => !isPreviewFx e)) = true) ∧
      ((!st.settings.background && !n.foreground) = false → st.settings.vibration = true →
        out.hapticFails = true →
        (handleMobileNotification st out n).2 = some "haptic error" ∧
        ((handleMobileNotification st out n).1.all (fun e => !isPreviewFx e)) = true) ∧
      ((!st.settings.background && hid) = false →
        (st.settings.vibration && mob && out.hapticFails) = false →
        (st.settings.preview && st.hasPermission) = true → hid = false →
        out.scheduleFails = true →
        (handleNotification st mob hid out p).2 = some "schedule error") ∧
      ((!st.settings.background && hid) = false →
        (st.settings.vibration && mob && out.hapticFails) = false →
        (st.settings.preview && st.hasPermission) = true → hid = true →
        out.showFails = true →
        (handleNotification st mob hid out p).2 = some "show error") ∧
      ((!st.settings.background && !n.foreground) = false →
        (st.settings.vibration && out.hapticFails) = false →
        st.settings.preview = true → out.scheduleFails = true →
        (handleMobileNotification st out n).2 = some "schedule error") := by
  intro st mob hid out p n
  refine ⟨rfl, rfl, ?_, ?_, ?_, ?_, ?_⟩
  · intro hgate hv hm hh
    subst hm
    unfold handleNotification
    rw [hgate]
    simp only [Bool.false_eq_true, if_false]
    rw [hv]
    simp only [Bool.true_and, Bool.and_true]
    rw [hh]
    simp only [if_true]
    cases hs : st.settings.sound <;>
      simp [playNotificationSound, List.all_append, isPreviewFx, hs]
  · intro hgate hv hh
    unfold handleMobileNotification
    rw [hgate]
    simp only [Bool.false_eq_true, if_false]
    rw [hv]
    rw [hh]
    simp only [if_true]
    cases hs : st.settings.sound <;>
      simp [playNotificationSound, List.all_append, isPreviewFx, hs]
  · intro hgate hnh hp hhid hs
    unfold handleNotification
    rw [hgate]
    simp only [Bool.false_eq_true, if_false]
    by_cases hvm : (st.settings.vibration && mob) = true
    · rw [hvm]
      have hhf : out.hapticFails = false := by
        rw [Bool.and_assoc] at hnh
        rcases Bool.and_eq_false_iff.mp hnh with h1 | h2
        · rw [Bool.and_eq_true] at hvm
          rw [hvm.1] at h1
          simp at h1
        · rcases Bool.and_eq_false_iff.mp h2 with h3 | h4
          · rw [Bool.and_eq_true] at hvm
            rw [hvm.2] at h3
            simp at h3
          · exact h4
      rw [hhf]
      simp only [Bool.false_eq_true, if_false, if_true]
      exact previewGateWeb_schedule_err st hid out p _ hp hhid hs
    · rw [Bool.not_eq_true] at hvm
      rw [hvm]
      simp only [Bool.false_eq_true, if_false]
      exact previewGateWeb_schedule_err st hid out p _ hp hhid hs
  · intro hgate hnh hp hhid hs
    unfold handleNotification
    rw [hgate]
    simp only [Bool.false_eq_true, if_false]
    by_cases hvm : (st.settings.vibration && mob) = true
    · rw [hvm]
      have hhf : out.hapticFails = false := by
        rw [Bool.and_assoc] at hnh
        rcases Bool.and_eq_false_iff.mp hnh with h1 | h2
        · rw [Bool.and_eq_true] at hvm
          rw [hvm.1] at h1
          simp at h1
        · rcases Bool.and_eq_false_iff.mp h2 with h3 | h4
          · rw [Bool.and_eq_true] at hvm
            rw [hvm.2] at h3
            simp at h3
          · exact h4
      rw [hhf]
      simp only [Bool.false_eq_true, if_false, if_true]
      exact previewGateWeb_show_err st hid out p _ hp hhid hs
    · rw [Bool.not_eq_true] at hvm
      rw [hvm]
      simp only [Bool.false_eq_true, if_false]
      exact previewGateWeb_show_err st hid out p _ hp hhid hs
  · intro hgate hnh hp hs
    unfold handleMobileNotification
    rw [hgate]
    simp only [Bool.false_eq_true, if_false]
    by_cases hv : st.settings.vibration = true
    · rw [hv]
      have hhf : out.hapticFails = false := by
        rcases Bool.and_eq_false_iff.mp hnh with h1 | h2
        · rw [hv] at h1
          simp at h1
        · exact h2
      rw [hhf]
      simp only [Bool.false_eq_true, if_false, if_true]
      exact mobilePreviewGate_schedule_err st out n _ hp hs
    · rw [Bool.not_eq_true] at hv
      rw [hv]
      simp only [Bool.false_eq_true, if_false]
      exact mobilePreviewGate_schedule_err st out n _ hp hs

/-- Witness for the amended C2: a haptic failure yields a propagated
`"haptic error"` on the web handler; a scheduling failure yields a propagated
`"schedule error"` on both the visible-document web path and the mobile path;
a `new Notification` failure on the hidden-document web path yields a
propagated `"show error"`. -/
theorem handler_failure_isolation_witness :
    (handleNotification exServiceState true false exOutHaptic exWebPayload).2 =
      some "haptic error" ∧
    (handleNotification exServiceState true false exOutSchedule exWebPayload).2 =
      some "schedule error" ∧
    (handleNotification exServiceState true true exOutShow exWebPayload).2 =
      some "show error" ∧
    (handleMobileNotification exServiceState exOutSchedule exMobilePayload).2 =
      some "schedule error" := by
  have h1 := handler_failure_isolation exServiceState true false exOutHaptic
    exWebPayload exMobilePayload
  have h2 := handler_failure_isolation exServiceState true false exOutSchedule
    exWebPayload exMobilePayload
  have h3 := handler_failure_isolation exServiceState true true exOutShow
    exWebPayload exMobilePayload
  refine ⟨(h1.2.2.1 rfl rfl rfl rfl).1, ?_, ?_, ?_⟩
  · exact h2.2.2.2.2.1 rfl rfl rfl rfl rfl
  · exact h3.2.2.2.2.2.1 rfl rfl rfl rfl rfl
  · exact h2.2.2.2.2.2.2 rfl rfl rfl rfl

/-- C3 counterexample: with previews enabled and permission held, a throw from
the scheduling collaborator is swallowed (no error propagates) but the
in-process `showNotification` UI event is *not* dispatched — the catch block
is reached before the dispatch line runs. -/
theorem sendServiceMatch_schedule_skips_ui :
    sendServiceMatchNotification exServiceState exOutSchedule exMatch =
      ([Effect.scheduleLocal "Nuovo Match Servizio"
          "Il tuo servizio \"Pulizie\" ha un potenziale match!"
          (some "notification.wav") "service_match"], none) ∧
    ((sendServiceMatchNotification exServiceState exOutSchedule exMatch).1.all
      (fun e => !isUIEventFx e)) = true ∧
    exServiceState.settings.preview = true ∧ exServiceState.hasPermission = true := by
  exact ⟨rfl, rfl, rfl, rfl⟩

/-- C3 as amended: `sendServiceMatchNotification` never raises to its caller;
when the scheduling step is skipped (previews off or no permission) or
succeeds, the in-process UI event carrying the same title/body and the
navigation action keyed by the match identifier is dispatched; when the
scheduling collaborator throws, the error is swallowed but the UI event is
not dispatched. -/
theorem sendServiceMatch_spec :
    ∀ (st : ServiceState) (out : EffectOutcomes) (m : ServiceMatch),
      (sendServiceMatchNotification st out m).2 = none ∧
      ((st.settings.preview && st.hasPermission) = true → out.scheduleFails = false →
        Effect.dispatchUIEvent "Nuovo Match Servizio"
          ("Il tuo servizio \"" ++ m.service1.name ++ "\" ha un potenziale match!")
          ("/services/matches/" ++ m.id) ∈ (sendServiceMatchNotification st out m).1) ∧
      ((st.settings.preview && st.hasPermission) = false →
        Effect.dispatchUIEvent "Nuovo Match Servizio"
          ("Il tuo servizio \"" ++ m.service1.name ++ "\" ha un potenziale match!")
          ("/services/matches/" ++ m.id) ∈ (sendServiceMatchNotification st out m).1) ∧
      ((st.settings.preview && st.hasPermission) = true → out.scheduleFails = true →
        ((sendServiceMatchNotification st out m).1.all (fun e => !isUIEventFx e)) = true) := by
  intro st out m
  refine ⟨?_, ?_, ?_, ?_⟩
  · unfold sendServiceMatchNotification
    repeat' split
    all_goals rfl
  · intro hp hs
    unfold sendServiceMatchNotification
    rw [hp, hs]
    simp
  · intro hp
    unfold sendServiceMatchNotification
    rw [hp]
    simp
  · intro hp hs
    unfold sendServiceMatchNotification
    rw [hp, hs]
    simp [isUIEventFx]

/-- Witness for the amended C3: with a functioning scheduler the call returns
normally and dispatches the UI event with the match's navigation target. -/
theorem sendServiceMatch_spec_witness :
    (sendServiceMatchNotification exServiceState exOutOk exMatch).2 = none ∧
    Effect.dispatchUIEvent "Nuovo Match Servizio"
      ("Il tuo servizio \"" ++ "Pulizie" ++ "\" ha un potenziale match!")
      ("/services/matches/" ++ "m1") ∈
      (sendServiceMatchNotification exServiceState exOutOk exMatch).1 := by
  have h := sendServiceMatch_spec exServiceState exOutOk exMatch
  exact ⟨h.1, h.2.1 rfl rfl⟩
